import Mathlib

/-!
Verification of the rate-limiting subsystem of the `everandalways/backend`
repository: client identification (`getTracker`), exemption matching
(`shouldSkip` and the Stripe-webhook middleware), throttler configuration
(`getThrottlerConfig`), and the window-counter admission algorithm.

The counter store and the guard's admission pipeline live in the
`@nestjs/throttler` dependency, not in the repository's own sources; those
parts are modelled from the specification (marked `Modelled from the spec:`).
Everything else is translated directly from the TypeScript sources.
-/

namespace RL

/-- JavaScript truthiness of a possibly-undefined string: `undefined`, `null`
and the empty string are falsy. -/
def truthy : Option String → Bool
  | none => false
  | some s => !(s == "")

/-- The JavaScript `a || b` operator on possibly-undefined strings: yields `a`
when `a` is truthy, otherwise `b`. -/
def jsOr (a b : Option String) : Option String :=
  if truthy a then a else b

/-- The JavaScript `a || d` with a string-literal default `d`. -/
def jsOrD (a : Option String) (d : String) : String :=
  match a with
  | none => d
  | some s => if s == "" then d else s

/-- ASCII lower-casing of one character, as JavaScript `toLowerCase` acts on
the ASCII paths and methods this system compares. -/
def charToLower (c : Char) : Char :=
  if 'A' ≤ c ∧ c ≤ 'Z' then Char.ofNat (c.toNat + 32) else c

/-- ASCII upper-casing of one character, as JavaScript `toUpperCase` acts on
the ASCII paths and methods this system compares. -/
def charToUpper (c : Char) : Char :=
  if 'a' ≤ c ∧ c ≤ 'z' then Char.ofNat (c.toNat - 32) else c

/-- JavaScript `s.toLowerCase()` on ASCII strings. -/
def strLower (s : String) : String :=
  String.mk (s.data.map charToLower)

/-- JavaScript `s.toUpperCase()` on ASCII strings. -/
def strUpper (s : String) : String :=
  String.mk (s.data.map charToUpper)

/-- A whitespace character as `String.prototype.trim` understands it
(restricted to the ASCII whitespace that can occur in these headers). -/
def isWs (c : Char) : Bool :=
  c == ' ' || c == '\t' || c == '\n' || c == '\r'

/-- JavaScript `s.trim()`: strip whitespace from both ends. -/
def jsTrim (s : String) : String :=
  String.mk (((s.data.dropWhile isWs).reverse.dropWhile isWs).reverse)

/-- Whether `needle` occurs as a contiguous run inside `haystack`. -/
def charsContain (needle : List Char) : List Char → Bool
  | [] => needle.isEmpty
  | c :: t => needle.isPrefixOf (c :: t) || charsContain needle t

/-- The JavaScript `haystack.includes(needle)` substring test. -/
def jsIncludes (haystack needle : String) : Bool :=
  charsContain needle.toList haystack.toList

/-- A TCP connection or socket object as read by the guard: only the
`remoteAddress` field is accessed. -/
structure Conn where
  remoteAddress : Option String

/-- The header fields the guard reads (`x-forwarded-for`, `x-real-ip`).
Absent headers are `none`. -/
structure Headers where
  xForwardedFor : Option String
  xRealIp : Option String

/-- The request object as accessed by `CustomThrottlerGuard` and the
Stripe-webhook middleware (src/plugins/rate-limit.plugin.ts,
src/middleware/rate-limit.middleware.ts). Fields that may be `undefined`
at runtime are `Option`s; `skipThrottle` is absent (falsy) until the
middleware sets it. -/
structure Req where
  ip : Option String
  connection : Option Conn
  socket : Option Conn
  headers : Option Headers
  path : Option String
  method : Option String
  skipThrottle : Bool

/-- The left-most entry of a comma-separated header value, with surrounding
whitespace trimmed: `v.split(',')[0]?.trim()`. -/
def xffFirstEntry (v : String) : String :=
  jsTrim (String.mk (v.data.takeWhile (fun c => !(c == ','))))

/-- The left-most entry of the `x-forwarded-for` header with whitespace
trimmed, as computed by
`(req.headers?.['x-forwarded-for'] as string)?.split(',')[0]?.trim()`. -/
def xffLeftmost (r : Req) : Option String :=
  (r.headers.bind Headers.xForwardedFor).map xffFirstEntry

/-- `CustomThrottlerGuard.getTracker` (src/plugins/rate-limit.plugin.ts
lines 58-74): `if (!req) return 'unknown'`, then
`req.ip || req.connection?.remoteAddress || req.socket?.remoteAddress ||
xff-leftmost || req.headers?.['x-real-ip'] || 'unknown'`. -/
def getTracker (oreq : Option Req) : String :=
  match oreq with
  | none => "unknown"
  | some r =>
    jsOrD
      (jsOr r.ip
        (jsOr (r.connection.bind Conn.remoteAddress)
          (jsOr (r.socket.bind Conn.remoteAddress)
            (jsOr (xffLeftmost r)
              (r.headers.bind Headers.xRealIp)))))
      "unknown"

/-- Dereferencing a possibly-undefined JavaScript value: accessing a property
of `undefined` raises a `TypeError`; this models the error channel. -/
def jsDeref {α : Type} (o : Option α) : Except String α :=
  match o with
  | none => Except.error "TypeError"
  | some a => Except.ok a

/-- `getTracker` with the JavaScript error channel made explicit: the
`if (!req)` guard handles the nullish request, and every later access is
optional-chained in the source, so no dereference can fail. -/
def getTrackerE (oreq : Option Req) : Except String String :=
  if truthy (oreq.map (fun _ => "req")) = false then
    Except.ok "unknown"
  else do
    let r ← jsDeref oreq
    Except.ok
      (jsOrD
        (jsOr r.ip
          (jsOr (r.connection.bind Conn.remoteAddress)
            (jsOr (r.socket.bind Conn.remoteAddress)
              (jsOr (xffLeftmost r)
                (r.headers.bind Headers.xRealIp)))))
        "unknown")

/-- The excluded-route patterns shared by `CustomThrottlerGuard.shouldSkip`
and `StripeWebhookThrottleBypassMiddleware`. -/
def stripeWebhookPatterns : List String :=
  ["/payments/stripe/webhook", "/stripe/webhook", "/api/webhooks/stripe"]

/-- `StripeWebhookThrottleBypassMiddleware.isStripeWebhookRequest`
(src/middleware/rate-limit.middleware.ts lines 38-55): POST method and the
lower-cased path contains one of the Stripe webhook patterns. -/
def isStripeWebhookRequest (path method : String) : Bool :=
  if strUpper method != "POST" then false
  else stripeWebhookPatterns.any (fun pat => jsIncludes (strLower path) pat)

/-- `StripeWebhookThrottleBypassMiddleware.use`: flags the request with
`skipThrottle = true` when it is a Stripe webhook request; the middleware
reads `req.path` and `req.method` without optional chaining, so it
dereferences them strictly. -/
def middlewareUse (r : Req) : Except String Req := do
  let p ← jsDeref r.path
  let m ← jsDeref r.method
  if isStripeWebhookRequest p m then
    Except.ok { r with skipThrottle := true }
  else
    Except.ok r

/-- `CustomThrottlerGuard.shouldSkip` (src/plugins/rate-limit.plugin.ts
lines 76-113): skip when the middleware flagged the request, or when the
method upper-cases to POST, the lower-cased path is truthy and contains one
of the Stripe webhook patterns. The `super.shouldSkip` fallback is modelled
from the spec as `false`: the exemption set of this system is exactly the
Stripe webhook rules, no route carries a skip decorator. -/
def shouldSkip (r : Req) : Bool :=
  if r.skipThrottle then true
  else
    let path := r.path.map strLower
    let method := r.method.map strUpper
    if method == some "POST" && truthy path then
      stripeWebhookPatterns.any (fun pat => jsIncludes (path.getD "") pat)
    else false

/-- JavaScript `parseInt(s, 10)`: skip leading whitespace, read an optional
sign and then the maximal digit prefix; `none` models `NaN` (no digits). -/
def jsParseInt (s : String) : Option Int :=
  let cs := s.toList.dropWhile (fun c => c == ' ' || c == '\t' || c == '\n' || c == '\r')
  let signAndRest : Int × List Char :=
    match cs with
    | '-' :: t => (-1, t)
    | '+' :: t => (1, t)
    | _ => (1, cs)
  let ds := signAndRest.2.takeWhile Char.isDigit
  if ds.isEmpty then none
  else some (signAndRest.1 *
    (Int.ofNat (ds.foldl (fun acc c => acc * 10 + (c.toNat - 48)) 0)))

/-- One throttler options entry (`{ name, ttl, limit }`); `limit : Option Int`
with `none` modelling `NaN`. -/
structure ThrottlerOptions where
  name : String
  ttl : Nat
  limit : Option Int
deriving DecidableEq

/-- `getThrottlerConfig` (src/config/throttler.config.ts lines 13-32), as a
function of the two environment variables it reads: `APP_ENV` (prod when
equal to `"prod"`) and `THROTTLE_LIMIT_PER_MINUTE`. The default is `'100'`
in prod and `'1000'` otherwise, applied through `||` (so an empty string
also falls back). -/
def getThrottlerConfig (appEnv throttleLimit : Option String) : List ThrottlerOptions :=
  if appEnv == some "prod" then
    [⟨"global", 60000, jsParseInt (jsOrD throttleLimit "100")⟩]
  else
    [⟨"global", 60000, jsParseInt (jsOrD throttleLimit "1000")⟩]

/-- Configuration resolution with an explicit failure channel: the source has
no validation and no throwing path (`parseInt` never throws), so resolution
always succeeds, whatever the environment holds. -/
def getThrottlerConfigE (appEnv throttleLimit : Option String) :
    Except String (List ThrottlerOptions) :=
  Except.ok (getThrottlerConfig appEnv throttleLimit)

/-- Modelled from the spec: the `LimitPolicy` of §3 — window duration and
maximum admitted requests per window. The concrete policy object lives in
`@nestjs/throttler`, not in the repository's sources. -/
structure LimitPolicy where
  windowDuration : Nat
  maxRequests : Nat
deriving DecidableEq

/-- Modelled from the spec: the result of `incrementAndCheck` in §4.3. -/
structure CheckResult where
  admitted : Bool
  remaining : Nat
  resetAt : Nat
deriving DecidableEq

/-- Modelled from the spec: the `WindowCounterStore` state of §3 and §4.3 —
per-key, per-window request counts; an untouched `(key, windowId)` pair is a
counter at zero ("created on first request"). The concrete store lives in
`@nestjs/throttler`, not in the repository's sources. -/
def Store : Type := String → Nat → Nat

/-- The store with every counter at zero. -/
def Store.empty : Store := fun _ _ => 0

/-- The result of an admission check whose post-increment count is `cnt` in
window `wid`: admitted iff `cnt ≤ maxRequests`, `remaining = max 0 (M - cnt)`
(automatic with `Nat` subtraction), `resetAt = (wid + 1) * windowDuration`. -/
def mkResult (p : LimitPolicy) (wid cnt : Nat) : CheckResult :=
  ⟨decide (cnt ≤ p.maxRequests), p.maxRequests - cnt, (wid + 1) * p.windowDuration⟩

/-- Modelled from the spec: `WindowCounterStore.incrementAndCheck` of §4.3.
Computes `windowId = floor(now / windowDuration)`, atomically increments the
`(key, windowId)` counter and compares the post-increment value against
`maxRequests`. The concrete implementation lives in `@nestjs/throttler`, not
in the repository's sources. -/
def incrementAndCheck (s : Store) (key : String) (p : LimitPolicy) (now : Nat) :
    CheckResult × Store :=
  let wid := now / p.windowDuration
  let cnt := s key wid + 1
  (mkResult p wid cnt,
   fun k w => if k = key ∧ w = wid then cnt else s k w)

/-- Run a sequence of admission checks for one key, one per timestamp in
`nows`, threading the store; returns the per-request results in order. Since
each `incrementAndCheck` is atomic (§5), any interleaving of concurrent
callers is one such sequence. -/
def runRequests (key : String) (p : LimitPolicy) (s : Store) :
    List Nat → List CheckResult × Store
  | [] => ([], s)
  | t :: ts =>
    let step := incrementAndCheck s key p t
    let rest := runRequests key p step.2 ts
    (step.1 :: rest.1, rest.2)

/-- Modelled from the spec: the `Decision` type of §4.4. `allowUnlimited` is
the exempt outcome (no quota metadata), `allowFailOpen` the store-failure
outcome. -/
inductive Decision
  | allowUnlimited
  | allowFailOpen
  | allow (remaining limit resetAt : Nat)
  | deny (limit resetAt : Nat)
deriving DecidableEq

/-- Modelled from the spec: the `AdmissionGuard.decide` pipeline of §4.4,
which lives in `@nestjs/throttler`, not in the repository's sources —
exemption short-circuits before any store access; the client key comes from
`getTracker`; a store failure is caught and the request allowed (fail-open,
§4.4 and §7); otherwise the store's verdict is mapped to allow/deny. The
store operation is a parameter so that failing stores can be considered. -/
def guardDecide
    (storeOp : Store → String → LimitPolicy → Nat → Except String (CheckResult × Store))
    (r : Req) (s : Store) (p : LimitPolicy) (now : Nat) : Decision × Store :=
  if shouldSkip r then (Decision.allowUnlimited, s)
  else
    match storeOp s (getTracker (some r)) p now with
    | Except.error _ => (Decision.allowFailOpen, s)
    | Except.ok (res, s') =>
      (if res.admitted then Decision.allow res.remaining p.maxRequests res.resetAt
       else Decision.deny p.maxRequests res.resetAt, s')

/-- The non-failing store operation: plain `incrementAndCheck`. -/
def okStoreOp : Store → String → LimitPolicy → Nat → Except String (CheckResult × Store) :=
  fun s key p now => Except.ok (incrementAndCheck s key p now)

/-! ## Helper lemmas -/

lemma incrementAndCheck_fst (s : Store) (key : String) (p : LimitPolicy) (now : Nat) :
    (incrementAndCheck s key p now).1 =
      mkResult p (now / p.windowDuration) (s key (now / p.windowDuration) + 1) := rfl

lemma incrementAndCheck_snd_same (s : Store) (key : String) (p : LimitPolicy) (now : Nat) :
    (incrementAndCheck s key p now).2 key (now / p.windowDuration) =
      s key (now / p.windowDuration) + 1 := by
  show (if key = key ∧ now / p.windowDuration = now / p.windowDuration then _ else _) = _
  rw [if_pos ⟨rfl, rfl⟩]

lemma incrementAndCheck_snd_other (s : Store) (key : String) (p : LimitPolicy) (now : Nat)
    (k : String) (w : Nat) (h : ¬(k = key ∧ w = now / p.windowDuration)) :
    (incrementAndCheck s key p now).2 k w = s k w := by
  show (if k = key ∧ w = now / p.windowDuration then _ else _) = _
  rw [if_neg h]

/-- Running a batch of same-window checks yields the post-increment counts
`start + 1, start + 2, ...` in order. -/
lemma runRequests_results (key : String) (p : LimitPolicy) (w : Nat) :
    ∀ (nows : List Nat) (s : Store), (∀ t ∈ nows, t / p.windowDuration = w) →
    (runRequests key p s nows).1 =
      (List.range nows.length).map (fun i => mkResult p w (s key w + i + 1)) := by
  intro nows
  induction nows with
  | nil => intro s _; rfl
  | cons t ts ih =>
    intro s h
    have hw : t / p.windowDuration = w := h t (by simp)
    have hts : ∀ u ∈ ts, u / p.windowDuration = w := fun u hu => h u (by simp [hu])
    have hstep : (runRequests key p s (t :: ts)).1 =
        (incrementAndCheck s key p t).1 ::
          (runRequests key p (incrementAndCheck s key p t).2 ts).1 := rfl
    rw [hstep, ih _ hts, incrementAndCheck_fst, hw]
    have hcnt : (incrementAndCheck s key p t).2 key w = s key w + 1 := by
      rw [← hw]
      exact incrementAndCheck_snd_same s key p t
    rw [hcnt]
    rw [List.length_cons, List.range_succ_eq_map, List.map_cons, List.map_map]
    have hfun : ∀ i : Nat, mkResult p w (s key w + 1 + i + 1)
        = ((fun i => mkResult p w (s key w + i + 1)) ∘ Nat.succ) i := by
      intro i
      show mkResult p w (s key w + 1 + i + 1) = mkResult p w (s key w + (i + 1) + 1)
      congr 1
      omega
    refine congrArg₂ List.cons ?_ ?_
    · congr 1
    · exact List.map_congr_left (fun i _ => hfun i)

/-- A batch of requests leaves every counter it never touches unchanged. -/
lemma runRequests_frame (key : String) (p : LimitPolicy) :
    ∀ (nows : List Nat) (s : Store) (k : String) (w : Nat),
    (∀ t ∈ nows, ¬(k = key ∧ w = t / p.windowDuration)) →
    (runRequests key p s nows).2 k w = s k w := by
  intro nows
  induction nows with
  | nil => intro s k w _; rfl
  | cons t ts ih =>
    intro s k w h
    have h1 : ¬(k = key ∧ w = t / p.windowDuration) := h t (by simp)
    have hts : ∀ u ∈ ts, ¬(k = key ∧ w = u / p.windowDuration) := fun u hu => h u (by simp [hu])
    have hstep : (runRequests key p s (t :: ts)).2 =
        (runRequests key p (incrementAndCheck s key p t).2 ts).2 := rfl
    rw [hstep, ih _ _ _ hts, incrementAndCheck_snd_other _ _ _ _ _ _ h1]

lemma countP_range_le (M : Nat) : ∀ K : Nat,
    (List.range K).countP (fun i => decide (i + 1 ≤ M)) = min K M := by
  intro K
  induction K with
  | zero => simp
  | succ K ih =>
    rw [List.range_succ, List.countP_append, ih]
    by_cases h : K + 1 ≤ M
    · simp [List.countP_cons, List.countP_nil, h]
      omega
    · simp [List.countP_cons, List.countP_nil, h]
      omega

lemma countP_range_gt (M : Nat) : ∀ K : Nat,
    (List.range K).countP (fun i => !decide (i + 1 ≤ M)) = K - min K M := by
  intro K
  induction K with
  | zero => simp
  | succ K ih =>
    rw [List.range_succ, List.countP_append, ih]
    by_cases h : K + 1 ≤ M
    · simp [List.countP_cons, List.countP_nil, h]
      omega
    · simp [List.countP_cons, List.countP_nil, h]
      omega

lemma empty_shift (p : LimitPolicy) (key : String) (w : Nat) :
    (fun i => mkResult p w (Store.empty key w + i + 1)) = (fun i => mkResult p w (i + 1)) :=
  funext fun i => by
    congr 1
    show 0 + i + 1 = i + 1
    omega

lemma getTrackerE_ok : ∀ oreq : Option Req, getTrackerE oreq = Except.ok (getTracker oreq) := by
  intro oreq
  cases oreq <;> rfl

lemma patterns_empty_path : ∀ pat ∈ stripeWebhookPatterns, jsIncludes "" pat = false := by
  decide

/-! ## Claim theorems -/

/-- C1: for every policy with `maxRequests = M`, under sequential requests
within a single window the first `M` admission checks are admitted (the
`i`-th with `remaining = M - (i+1)`), the `(M+1)`-th is denied with
`remaining = 0`, and admission is decided by comparing the post-increment
count against `maxRequests` (admitted iff `postIncrementCount ≤ maxRequests`). -/
theorem sequential_admission_bound (p : LimitPolicy) (key : String) (now : Nat) :
    (∀ i, i < p.maxRequests →
      ((runRequests key p Store.empty (List.replicate (p.maxRequests + 1) now)).1)[i]? =
        some ⟨true, p.maxRequests - (i + 1),
              (now / p.windowDuration + 1) * p.windowDuration⟩) ∧
    ((runRequests key p Store.empty (List.replicate (p.maxRequests + 1) now)).1)[p.maxRequests]? =
        some ⟨false, 0, (now / p.windowDuration + 1) * p.windowDuration⟩ ∧
    (∀ (s : Store) (t : Nat), ((incrementAndCheck s key p t).1).admitted = true ↔
        s key (t / p.windowDuration) + 1 ≤ p.maxRequests) := by
  have hrepl : ∀ t ∈ List.replicate (p.maxRequests + 1) now,
      t / p.windowDuration = now / p.windowDuration :=
    fun t ht => by rw [List.eq_of_mem_replicate ht]
  have hres := runRequests_results key p (now / p.windowDuration) _ Store.empty hrepl
  rw [List.length_replicate, empty_shift] at hres
  refine ⟨?_, ?_, ?_⟩
  · intro i hi
    rw [hres, List.getElem?_map, List.getElem?_range (by omega)]
    simp [mkResult, CheckResult.mk.injEq]
    omega
  · rw [hres, List.getElem?_map, List.getElem?_range (by omega)]
    simp [mkResult, CheckResult.mk.injEq]
  · intro s t
    rw [incrementAndCheck_fst]
    simp [mkResult]

/-- Witness for C1 at `M = 3`: the 2nd request is admitted with
`remaining = 1` and the 4th is denied with `remaining = 0`. -/
theorem sequential_admission_bound_witness :
    (1 < 3 ∧ ((runRequests "k" ⟨60000, 3⟩ Store.empty (List.replicate 4 0)).1)[1]? =
      some ⟨true, 1, 60000⟩) ∧
    ((runRequests "k" ⟨60000, 3⟩ Store.empty (List.replicate 4 0)).1)[3]? =
      some ⟨false, 0, 60000⟩ :=
  ⟨⟨by decide, by exact (sequential_admission_bound ⟨60000, 3⟩ "k" 0).1 1 (by decide)⟩,
   by exact (sequential_admission_bound ⟨60000, 3⟩ "k" 0).2.1⟩

/-- C2: firing `K > M` requests for one key within one window — since each
increment-then-compare step is atomic per key, every interleaving of the
concurrent callers is some sequential order, covered by quantifying over all
timestamp sequences — yields exactly `M` admissions and `K - M` denials. -/
theorem concurrent_admission_bound (p : LimitPolicy) (key : String) (w : Nat) (nows : List Nat)
    (hwin : ∀ t ∈ nows, t / p.windowDuration = w)
    (hover : p.maxRequests < nows.length) :
    (runRequests key p Store.empty nows).1.countP (fun r => r.admitted) = p.maxRequests ∧
    (runRequests key p Store.empty nows).1.countP (fun r => !r.admitted) =
      nows.length - p.maxRequests := by
  rw [runRequests_results key p w nows Store.empty hwin, empty_shift]
  rw [List.countP_map, List.countP_map]
  have h1 : ((fun r : CheckResult => r.admitted) ∘ fun i => mkResult p w (i + 1)) =
      (fun i => decide (i + 1 ≤ p.maxRequests)) := funext fun i => rfl
  have h2 : ((fun r : CheckResult => !r.admitted) ∘ fun i => mkResult p w (i + 1)) =
      (fun i => !decide (i + 1 ≤ p.maxRequests)) := funext fun i => rfl
  rw [h1, h2, countP_range_le, countP_range_gt]
  omega

/-- Witness for C2 at `M = 3`, `K = 5`: exactly 3 admissions and 2 denials. -/
theorem concurrent_admission_bound_witness :
    ((∀ t ∈ ([0, 1, 2, 3, 4] : List Nat), t / 60000 = 0) ∧ 3 < 5) ∧
    ((runRequests "k" ⟨60000, 3⟩ Store.empty [0, 1, 2, 3, 4]).1.countP (fun r => r.admitted) = 3 ∧
     (runRequests "k" ⟨60000, 3⟩ Store.empty [0, 1, 2, 3, 4]).1.countP (fun r => !r.admitted) = 2) :=
  ⟨⟨by decide, by decide⟩,
   by exact concurrent_admission_bound ⟨60000, 3⟩ "k" 0 [0, 1, 2, 3, 4] (by decide) (by decide)⟩

/-- C3: a request is exempt iff the middleware flagged it `skipThrottle`, or
its method upper-cases to POST and its lower-cased path contains one of the
configured Stripe-webhook patterns; an exempt request is admitted
unconditionally with no counter mutated for any key, and a non-exempt
request goes through normal quota accounting. -/
theorem exemption_iff (r : Req)
    (storeOp : Store → String → LimitPolicy → Nat → Except String (CheckResult × Store))
    (s : Store) (p : LimitPolicy) (now : Nat) :
    (shouldSkip r = true ↔
      (r.skipThrottle = true ∨
        ∃ m pa, r.method = some m ∧ r.path = some pa ∧ strUpper m = "POST" ∧
          stripeWebhookPatterns.any (fun pat => jsIncludes (strLower pa) pat) = true)) ∧
    (shouldSkip r = true → guardDecide storeOp r s p now = (Decision.allowUnlimited, s)) ∧
    (shouldSkip r = false → ∀ res s',
      storeOp s (getTracker (some r)) p now = Except.ok (res, s') →
      guardDecide storeOp r s p now =
        (if res.admitted then Decision.allow res.remaining p.maxRequests res.resetAt
         else Decision.deny p.maxRequests res.resetAt, s')) := by
  refine ⟨?_, ?_, ?_⟩
  · cases hsk : r.skipThrottle with
    | true => simp [shouldSkip, hsk]
    | false =>
      simp only [shouldSkip, hsk, Bool.false_eq_true, if_false]
      cases hm : r.method with
      | none => simp
      | some m =>
        cases hp : r.path with
        | none => simp [truthy]
        | some pa =>
          simp only [Option.map_some, Option.some.injEq, truthy]
          by_cases hpost : strUpper m = "POST"
          · by_cases hempty : strLower pa = ""
            · simp [hpost, hempty]
              exact patterns_empty_path
            · simp [hpost, hempty]
          · simp [hpost]
  · intro h
    simp [guardDecide, h]
  · intro h res s_1 hop
    simp [guardDecide, h, hop]

/-- Witness for C3: a POST to `/payments/STRIPE/webhook` (mixed case) is
exempt and the guard leaves the store untouched. -/
theorem exemption_iff_witness :
    shouldSkip ⟨none, none, none, none, some "/payments/STRIPE/webhook", some "post", false⟩ = true ∧
    guardDecide okStoreOp
      ⟨none, none, none, none, some "/payments/STRIPE/webhook", some "post", false⟩
      Store.empty ⟨60000, 100⟩ 0 = (Decision.allowUnlimited, Store.empty) :=
  ⟨by decide,
   (exemption_iff ⟨none, none, none, none, some "/payments/STRIPE/webhook", some "post", false⟩
      okStoreOp Store.empty ⟨60000, 100⟩ 0).2.1 (by decide)⟩

/-- C4 counterexample: with `X-Forwarded-For: 203.0.113.9, 10.0.0.1` present
but a truthy transport-level remote address (`connection.remoteAddress =
"10.0.0.1"`), the tracker resolves `"10.0.0.1"`, not the header entry
`"203.0.113.9"` — the source consults `req.ip` and the remote addresses
before the forwarded header. -/
theorem xff_not_leftmost_cex :
    getTracker (some ⟨none, some ⟨some "10.0.0.1"⟩, none,
        some ⟨some "203.0.113.9, 10.0.0.1", none⟩, none, none, false⟩) = "10.0.0.1" ∧
    getTracker (some ⟨none, some ⟨some "10.0.0.1"⟩, none,
        some ⟨some "203.0.113.9, 10.0.0.1", none⟩, none, none, false⟩) ≠ "203.0.113.9" := by
  refine ⟨by decide, ?_⟩
  decide

/-- C4 amended: when `req.ip` and both remote addresses are absent or empty
and the forwarded header is present with a usable left-most entry, the
resolved key is that left-most entry, trimmed. -/
theorem xff_leftmost_fallback (r : Req) (v : String)
    (h1 : truthy r.ip = false)
    (h2 : truthy (r.connection.bind Conn.remoteAddress) = false)
    (h3 : truthy (r.socket.bind Conn.remoteAddress) = false)
    (hxff : r.headers.bind Headers.xForwardedFor = some v)
    (husable : xffFirstEntry v ≠ "") :
    getTracker (some r) = xffFirstEntry v := by
  have hbe : (xffFirstEntry v == "") = false := by simpa using husable
  have hx : xffLeftmost r = some (xffFirstEntry v) := by
    rw [xffLeftmost, hxff]
    rfl
  simp only [getTracker, jsOr, h1, h2, h3, hx, Bool.false_eq_true, if_false]
  have htr : truthy (some (xffFirstEntry v)) = true := by
    simp [truthy, hbe]
  rw [htr]
  simp [jsOrD, hbe]

/-- Witness for the amended C4: with only the forwarded header set to
`"203.0.113.9, 10.0.0.1"`, the resolved key is `"203.0.113.9"`. -/
theorem xff_leftmost_fallback_witness :
    xffFirstEntry "203.0.113.9, 10.0.0.1" ≠ "" ∧
    getTracker (some ⟨none, none, none,
        some ⟨some "203.0.113.9, 10.0.0.1", none⟩, none, none, false⟩) = "203.0.113.9" :=
  ⟨by decide,
   (xff_leftmost_fallback
      ⟨none, none, none, some ⟨some "203.0.113.9, 10.0.0.1", none⟩, none, none, false⟩
      "203.0.113.9, 10.0.0.1" (by decide) (by decide) (by decide) rfl (by decide)).trans
    (by decide)⟩

/-- C5: for every non-exempt request, if the store operation errors the guard
fails open — the decision is an allow, the store is left unchanged, and no
error reaches the caller (the pipeline's return type has no error channel). -/
theorem guard_fail_open
    (storeOp : Store → String → LimitPolicy → Nat → Except String (CheckResult × Store))
    (r : Req) (s : Store) (p : LimitPolicy) (now : Nat) (e : String)
    (hskip : shouldSkip r = false)
    (herr : storeOp s (getTracker (some r)) p now = Except.error e) :
    guardDecide storeOp r s p now = (Decision.allowFailOpen, s) := by
  simp [guardDecide, hskip, herr]

/-- Witness for C5: a plain request against a store that always errors is
still allowed. -/
theorem guard_fail_open_witness :
    shouldSkip ⟨none, none, none, none, none, none, false⟩ = false ∧
    guardDecide (fun _ _ _ _ => Except.error "unavailable")
      ⟨none, none, none, none, none, none, false⟩ Store.empty ⟨60000, 100⟩ 0 =
      (Decision.allowFailOpen, Store.empty) :=
  ⟨by decide, guard_fail_open _ _ _ _ _ "unavailable" (by decide) rfl⟩

/-- C6: the resolved policy always has a 60-second (60000 ms) window, its
limit is the parsed `THROTTLE_LIMIT_PER_MINUTE` whenever that variable is
set and non-empty, and otherwise 100 when `APP_ENV = "prod"` and 1000 in the
development mode. -/
theorem throttler_config_resolved (appEnv lim : Option String) :
    ((getThrottlerConfig appEnv lim).map ThrottlerOptions.ttl = [60000]) ∧
    (∀ s, lim = some s → s ≠ "" →
      getThrottlerConfig appEnv lim = [⟨"global", 60000, jsParseInt s⟩]) ∧
    ((lim = none ∨ lim = some "") →
      getThrottlerConfig appEnv lim =
        [⟨"global", 60000, some (if appEnv == some "prod" then 100 else 1000)⟩]) := by
  refine ⟨?_, ?_, ?_⟩
  · unfold getThrottlerConfig
    split <;> rfl
  · intro s hs hne
    subst hs
    have hbe : (s == "") = false := by simpa using hne
    unfold getThrottlerConfig
    split <;> simp [jsOrD, hbe]
  · intro h
    have h100 : jsParseInt "100" = some 100 := by decide
    have h1000 : jsParseInt "1000" = some 1000 := by decide
    rcases h with h | h <;> subst h <;>
      · unfold getThrottlerConfig
        split <;> rename_i hc <;> simp [jsOrD, h100, h1000, hc]

/-- Witness for C6: override `"50"` in prod gives limit 50; no override in
dev gives limit 1000. -/
theorem throttler_config_resolved_witness :
    ((some "50" : Option String) = some "50" ∧ "50" ≠ "" ∧
      getThrottlerConfig (some "prod") (some "50") = [⟨"global", 60000, some 50⟩]) ∧
    getThrottlerConfig none none = [⟨"global", 60000, some 1000⟩] :=
  ⟨⟨rfl, by decide,
    ((throttler_config_resolved (some "prod") (some "50")).2.1 "50" rfl (by decide)).trans
      (by decide)⟩,
   ((throttler_config_resolved none none).2.2 (Or.inl rfl)).trans (by decide)⟩

/-- C7 evaluation: with `THROTTLE_LIMIT_PER_MINUTE = "not-a-number"` the
resolution succeeds (no failure path exists in the source) and produces a
policy whose limit is `NaN` (modelled `none`) — the process starts with an
invalid, silently disabled policy instead of refusing to start. -/
theorem invalid_config_accepted :
    getThrottlerConfigE (some "prod") (some "not-a-number") =
      Except.ok [⟨"global", 60000, none⟩] := by
  rfl

/-- C8: once the window of `w` has elapsed (`resetAt = (w+1) * windowDuration
≤ now2`), the next admission check for the key is admitted with
`remaining = M - 1`, whatever volume the key saw in windows up to `w`: the
new window's counter starts at zero. -/
theorem window_reset_fresh (p : LimitPolicy) (key : String) (w : Nat) (nows : List Nat)
    (now2 : Nat)
    (hD : 0 < p.windowDuration) (hM : 1 ≤ p.maxRequests)
    (hprior : ∀ t ∈ nows, t / p.windowDuration ≤ w)
    (helapsed : (w + 1) * p.windowDuration ≤ now2) :
    (incrementAndCheck (runRequests key p Store.empty nows).2 key p now2).1 =
      ⟨true, p.maxRequests - 1, (now2 / p.windowDuration + 1) * p.windowDuration⟩ := by
  have hw2 : w + 1 ≤ now2 / p.windowDuration := (Nat.le_div_iff_mul_le hD).2 helapsed
  have hframe : (runRequests key p Store.empty nows).2 key (now2 / p.windowDuration) = 0 := by
    rw [runRequests_frame key p nows Store.empty key (now2 / p.windowDuration) ?_]
    · rfl
    · intro t ht hcontra
      have hle := hprior t ht
      obtain ⟨-, h2⟩ := hcontra
      omega
  rw [incrementAndCheck_fst, hframe]
  simp [mkResult, CheckResult.mk.injEq]
  omega

/-- Witness for C8: after two requests in window 0, a request at
`now2 = 60000` is admitted with `remaining = 2` of 3. -/
theorem window_reset_fresh_witness :
    (0 < 60000 ∧ 1 ≤ 3 ∧ (∀ t ∈ ([0, 5] : List Nat), t / 60000 ≤ 0) ∧ (0 + 1) * 60000 ≤ 60000) ∧
    (incrementAndCheck (runRequests "k" ⟨60000, 3⟩ Store.empty [0, 5]).2 "k" ⟨60000, 3⟩ 60000).1 =
      ⟨true, 2, 120000⟩ :=
  ⟨⟨by decide, by decide, by decide, by decide⟩,
   by exact window_reset_fresh ⟨60000, 3⟩ "k" 0 [0, 5] 60000 (by decide) (by decide)
        (by decide) (by decide)⟩

/-- C9: when neither the forwarded headers nor the remote addresses yield a
usable (non-empty) value, the tracker returns the sentinel `"unknown"`, and
the instrumented evaluation shows no error is propagated. -/
theorem tracker_sentinel_unknown (r : Req)
    (h1 : truthy r.ip = false)
    (h2 : truthy (r.connection.bind Conn.remoteAddress) = false)
    (h3 : truthy (r.socket.bind Conn.remoteAddress) = false)
    (h4 : truthy (xffLeftmost r) = false)
    (h5 : truthy (r.headers.bind Headers.xRealIp) = false) :
    getTracker (some r) = "unknown" ∧ getTrackerE (some r) = Except.ok "unknown" := by
  have hmain : getTracker (some r) = "unknown" := by
    simp only [getTracker, jsOr, h1, h2, h3, h4, Bool.false_eq_true, if_false]
    cases hx : r.headers.bind Headers.xRealIp with
    | none => rfl
    | some v =>
      rw [hx] at h5
      simp only [truthy, Bool.not_eq_false'] at h5
      simp [jsOrD, h5]
  exact ⟨hmain, (getTrackerE_ok (some r)).trans (by rw [hmain])⟩

/-- Witness for C9: a request with no address information at all resolves to
the sentinel key. -/
theorem tracker_sentinel_unknown_witness :
    getTracker (some ⟨none, none, none, none, none, none, false⟩) = "unknown" ∧
    getTrackerE (some ⟨none, none, none, none, none, none, false⟩) = Except.ok "unknown" :=
  tracker_sentinel_unknown ⟨none, none, none, none, none, none, false⟩
    (by decide) (by decide) (by decide) (by decide) (by decide)

/-- C10: `getTracker` is total — on every input, including the nullish
request, the instrumented evaluation takes no error path and agrees with the
plain function, and the nullish request resolves to exactly `"unknown"`. -/
theorem getTracker_total :
    (∀ oreq : Option Req, getTrackerE oreq = Except.ok (getTracker oreq)) ∧
    getTracker none = "unknown" :=
  ⟨getTrackerE_ok, rfl⟩

end RL

